import Mathlib

/-!
Verification development for the Chroma-Deck CLI client
(`chroma_deck.py`).

The file shallowly embeds the client's two components:

* `hub_client` (spec: HubSession) — the hub connection loop with its
  room-directory cache and command dispatch (source lines 29–114);
* `room_chat` (spec: RoomSession) — the connect/handshake phase
  (lines 117–128, 160–161) and the steady state made of the concurrent
  `receiver` task and the outbound input loop (lines 130–159).

Pure computations (string dispatch, JSON field access, inbound message
classification) are embedded as Lean functions.  The stateful, concurrent
parts are embedded as explicit state machines driven by oracle event
scripts: each event is one atomic segment of Python code between two
`await` suspension points (asyncio is cooperatively scheduled, so code
between suspension points runs atomically), and the oracle chooses the
interleaving of the two tasks and the environment (message arrival,
connection loss, user input).
-/

namespace ChromaDeck

/-! ### Python string primitives

Python strings are sequences of code points; we model the operations the
source uses on the character list of a Lean `String`. -/

/-- Model of Python `str.strip()` with no arguments: remove leading and
trailing whitespace characters. -/
def pyStrip (s : String) : String :=
  ⟨((s.data.dropWhile Char.isWhitespace).reverse.dropWhile Char.isWhitespace).reverse⟩

/-- Model of Python `s.startswith(pre)`: `pre` is a prefix of the
character sequence of `s`. -/
def pyStartsWith (s pre : String) : Bool :=
  pre.data.isPrefixOf s.data

/-- Model of Python slicing `s[n:]` (by code points). -/
def pySliceFrom (s : String) (n : Nat) : String :=
  ⟨s.data.drop n⟩

/-! ### JSON values

Values produced by `json.loads`.  Numbers are modelled by integers (the
hub protocol carries no fractional numbers). -/

/-- A decoded JSON value, as `json.loads` returns it. -/
inductive JVal where
  | jnull
  | jbool (b : Bool)
  | jnum (n : Int)
  | jstr (s : String)
  | jarr (xs : List JVal)
  | jobj (fields : List (String × JVal))

/-- Model of Python `dict.get(key)` on a decoded JSON object (keys are
unique, so first match suffices). -/
def jgetObj : List (String × JVal) → String → Option JVal
  | [], _ => none
  | (k, v) :: rest, key => if k = key then some v else jgetObj rest key

/-- Python truthiness of a decoded JSON value (`0`, `""`, `[]`, `{}`,
`False`, `None` are falsy). -/
def jFalsy : JVal → Bool
  | .jnull => true
  | .jbool b => !b
  | .jnum n => n == 0
  | .jstr s => s.isEmpty
  | .jarr xs => xs.isEmpty
  | .jobj fs => fs.isEmpty

/-- Python truthiness of `dict.get`'s result: `None` (absent key) is
falsy, otherwise the value's own truthiness decides. -/
def optFalsy : Option JVal → Bool
  | none => true
  | some v => jFalsy v

/-! ### Inbound room-message classification

`receiver`, source lines 137–142: an ordered `if`/`elif`/`else` chain on
the inbound message. -/

/-- The three render classes of an inbound room-mode line. -/
inductive RClass where
  | systemNotice
  | taggedChat
  | genericInfo
deriving DecidableEq, Repr

/-- Classification of one inbound room message, embedding the
`if msg.startswith('---') / elif msg.startswith('[') / else` chain of
`receiver` (lines 137–142). -/
def classifyInbound (msg : String) : RClass :=
  if pyStartsWith msg "---" then .systemNotice
  else if pyStartsWith msg "[" then .taggedChat
  else .genericInfo

/-- C7: the room-mode inbound classification is a total, deterministic
function; every inbound line maps to exactly one of the three render
classes by the fixed ordered prefix rule — a line starting with `---`
renders as a highlighted system notice, otherwise a line starting with
`[` renders as a tagged chat line, and any other line renders as a
generic informational line. -/
theorem classifyInbound_total_ordered (msg : String) :
    (classifyInbound msg = .systemNotice ↔ pyStartsWith msg "---" = true) ∧
    (classifyInbound msg = .taggedChat ↔
      (pyStartsWith msg "---" = false ∧ pyStartsWith msg "[" = true)) ∧
    (classifyInbound msg = .genericInfo ↔
      (pyStartsWith msg "---" = false ∧ pyStartsWith msg "[" = false)) := by
  unfold classifyInbound
  rcases h1 : pyStartsWith msg "---" <;> rcases h2 : pyStartsWith msg "[" <;> simp

/-! ### RoomSession steady state (source lines 130–159)

`room_chat` runs two concurrent activities after the handshake: the
`receiver` task (lines 130–144) and the outbound input loop
(lines 147–159).  We embed them as one state machine; each event is one
atomic segment between `await` suspension points, and the oracle event
script chooses the interleaving. -/

/-- Outcome of a RoomSession run, as the spec's `SessionOutcome`. -/
inductive ROutcome where
  | leftVoluntarily
  | disconnected
deriving DecidableEq, Repr

/-- Status of the `receiver` task created at line 146. -/
inductive RecvStatus where
  | running
  | terminated
  | cancelled
deriving DecidableEq, Repr

/-- Control position of the outbound loop.  `awaitInput` is the
suspension in `read_input` (line 148); `closing` is the suspension
inside `await ws.close()` (line 151), after the `/leave` decision but
before `recv_task.cancel()`; `done` means `room_chat` has returned. -/
inductive RPhase where
  | awaitInput
  | closing
  | done (outcome : ROutcome)
deriving DecidableEq, Repr

/-- True on the `done` phases. -/
def RPhase.isDone : RPhase → Bool
  | .done _ => true
  | _ => false

/-- User-visible prints of the room session steady state and handshake. -/
inductive RRender where
  | inbound (c : RClass) (msg : String)
  | disconnectNotice
  | leaving
  | connLost
  | welcomeBanner (text : String)
  | joinedRoom (name : String)
  | joinFailure
deriving DecidableEq, Repr

/-- State of the RoomSession steady state: the receiver's pending inbox
(messages received by the websocket but not yet rendered), whether the
peer side of the stream has ended (`some true` = clean close,
`some false` = error), the receiver task status, the outbound loop
phase, the lines sent to the room connection, the render log, whether
the `/leave` decision has been taken, the inbound messages rendered
after that decision, and whether the connection has been closed. -/
structure RoomState where
  inbox : List String
  streamEnd : Option Bool
  recv : RecvStatus
  phase : RPhase
  sentLines : List String
  rendered : List RRender
  leaveDecided : Bool
  inboundAfterLeave : List String
  connClosed : Bool
deriving DecidableEq, Repr

/-- The state on entering the steady state (line 146). -/
def roomInit : RoomState :=
  { inbox := [], streamEnd := none, recv := .running, phase := .awaitInput,
    sentLines := [], rendered := [], leaveDecided := false,
    inboundAfterLeave := [], connClosed := false }

/-- Oracle events driving the steady state: `input` = `read_input`
completes with a line; `deliver` = a message arrives in the websocket's
inbox; `recvStep` = the scheduler runs one iteration of the `receiver`
task; `peerClose` = the server ends the stream (cleanly or with an
error); `closeDone` = the `await ws.close()` of the `/leave` branch
completes. -/
inductive REvent where
  | input (line : String)
  | deliver (msg : String)
  | recvStep
  | peerClose (ok : Bool)
  | closeDone
deriving DecidableEq, Repr

/-- One atomic step of the steady state.

* `input line` (lines 148–159): if `line.strip() == "/leave"`, print the
  leaving notice and start `ws.close()` (the cancel of the receiver
  happens only when the close completes — see `closeDone`); otherwise
  `await ws.send(line)`, which succeeds while the stream is open and
  raises once it has ended, in which case the connection-lost notice is
  printed, the receiver is cancelled and `room_chat` returns
  `Disconnected` (lines 154–159).
* `deliver` queues a message for the receiver while the stream is open.
* `recvStep` (lines 130–144): the receiver renders the next queued
  message (stamped classification, lines 137–142); with an empty queue
  and a terminated stream, the `async for` ends — silently on a clean
  close, printing the disconnect notice on an error close (line 144);
  `except Exception` does not catch `CancelledError`, so a cancelled
  receiver never prints.
* `peerClose ok` marks the end of the peer stream.
* `closeDone` (lines 151–153): `ws.close()` returns, the receiver task
  is cancelled and `room_chat` returns. -/
def roomStep (st : RoomState) (ev : REvent) : RoomState :=
  match ev with
  | .input line =>
    if st.phase = .awaitInput then
      if pyStrip line = "/leave" then
        { st with rendered := st.rendered ++ [.leaving],
                  leaveDecided := true, phase := .closing }
      else
        match st.streamEnd with
        | none => { st with sentLines := st.sentLines ++ [line] }
        | some _ =>
          { st with rendered := st.rendered ++ [.connLost],
                    recv := if st.recv = .running then .cancelled else st.recv,
                    phase := .done .disconnected, connClosed := true }
    else st
  | .deliver m =>
    if st.streamEnd.isNone && !st.phase.isDone then
      { st with inbox := st.inbox ++ [m] }
    else st
  | .recvStep =>
    match st.recv with
    | .running =>
      match st.inbox with
      | m :: rest =>
        { st with inbox := rest,
                  rendered := st.rendered ++ [.inbound (classifyInbound m) m],
                  inboundAfterLeave :=
                    st.inboundAfterLeave ++ (if st.leaveDecided then [m] else []) }
      | [] =>
        match st.streamEnd with
        | none => st
        | some true => { st with recv := .terminated }
        | some false =>
          { st with recv := .terminated,
                    rendered := st.rendered ++ [.disconnectNotice] }
    | _ => st
  | .peerClose ok =>
    if st.streamEnd.isNone && !st.phase.isDone then
      { st with streamEnd := some ok }
    else st
  | .closeDone =>
    if st.phase = .closing then
      { st with recv := if st.recv = .running then .cancelled else st.recv,
                phase := .done .leftVoluntarily, connClosed := true }
    else st

/-- Run the steady state over an oracle event script. -/
def roomRun (st : RoomState) (evs : List REvent) : RoomState :=
  evs.foldl roomStep st

theorem roomRun_append (st : RoomState) (a b : List REvent) :
    roomRun st (a ++ b) = roomRun (roomRun st a) b :=
  List.foldl_append roomStep st a b

theorem roomRun_cons (st : RoomState) (ev : REvent) (evs : List REvent) :
    roomRun st (ev :: evs) = roomRun (roomStep st ev) evs := rfl

/-- Once `room_chat` has returned and the receiver is not running, no
event has any further effect. -/
theorem roomStep_done_absorbing (st : RoomState) (o : ROutcome) (ev : REvent)
    (hph : st.phase = .done o) (hr : st.recv ≠ .running) :
    roomStep st ev = st := by
  cases ev with
  | input line =>
    simp [roomStep, hph]
  | deliver m =>
    simp [roomStep, hph, RPhase.isDone]
  | recvStep =>
    unfold roomStep
    cases h : st.recv with
    | running => exact absurd h hr
    | terminated => rfl
    | cancelled => rfl
  | peerClose ok =>
    simp [roomStep, hph, RPhase.isDone]
  | closeDone =>
    simp [roomStep, hph]

theorem roomRun_done_absorbing (evs : List REvent) :
    ∀ (st : RoomState) (o : ROutcome),
      st.phase = .done o → st.recv ≠ .running → roomRun st evs = st := by
  induction evs with
  | nil => intro st o _ _; rfl
  | cons ev evs ih =>
    intro st o hph hr
    rw [roomRun_cons, roomStep_done_absorbing st o ev hph hr]
    exact ih st o hph hr

/-- Invariant holding from the `/leave` decision on: no line is sent any
more (the lines sent stay `base`), and the outbound loop is either still
inside `ws.close()` or `room_chat` has returned `LeftVoluntarily` with
the receiver no longer running and the connection closed. -/
def PostLeave (base : List String) (st : RoomState) : Prop :=
  st.sentLines = base ∧
  (st.phase = .closing ∨
    (st.phase = .done .leftVoluntarily ∧ st.recv ≠ .running ∧ st.connClosed = true))

theorem postLeave_step (base : List String) (st : RoomState) (ev : REvent)
    (h : PostLeave base st) : PostLeave base (roomStep st ev) := by
  obtain ⟨hsent, hph⟩ := h
  rcases hph with hph | ⟨hph, hr, hc⟩
  · obtain ⟨inbox, streamEnd, recv, phase, sent, rend, ld, ial, cc⟩ := st
    simp only at hsent hph
    subst hph
    subst hsent
    cases ev with
    | input line => simp [roomStep, PostLeave]
    | deliver m =>
      rcases streamEnd with _ | (_ | _) <;>
        simp [roomStep, PostLeave, RPhase.isDone]
    | recvStep =>
      rcases recv with _ | _ | _ <;> rcases inbox with _ | ⟨m, rest⟩ <;>
        rcases streamEnd with _ | (_ | _) <;> simp [roomStep, PostLeave]
    | peerClose ok =>
      rcases streamEnd with _ | (_ | _) <;>
        simp [roomStep, PostLeave, RPhase.isDone]
    | closeDone =>
      rcases recv with _ | _ | _ <;> simp [roomStep, PostLeave]
  · rw [roomStep_done_absorbing st .leftVoluntarily ev hph hr]
    exact ⟨hsent, Or.inr ⟨hph, hr, hc⟩⟩

theorem roomRun_postLeave (base : List String) (evs : List REvent) :
    ∀ st : RoomState, PostLeave base st → PostLeave base (roomRun st evs) := by
  induction evs with
  | nil => intro st h; exact h
  | cons ev evs ih =>
    intro st h
    rw [roomRun_cons]
    exact ih _ (postLeave_step base st ev h)

/-- Invariant: no line whose stripped form is `/leave` is ever sent to
the room connection (the `/leave` test at line 149 precedes the send at
line 155). -/
def SentOk (st : RoomState) : Prop :=
  ∀ l ∈ st.sentLines, pyStrip l ≠ "/leave"

theorem sentOk_step (st : RoomState) (ev : REvent) (h : SentOk st) :
    SentOk (roomStep st ev) := by
  obtain ⟨inbox, streamEnd, recv, phase, sent, rend, ld, ial, cc⟩ := st
  simp only [SentOk] at h
  cases ev with
  | input line =>
    rcases phase with _ | _ | o <;> rcases streamEnd with _ | (_ | _) <;>
        by_cases hl : pyStrip line = "/leave" <;>
        simp_all [roomStep, SentOk]
    exact fun l hmem => hmem.elim (fun hm => h l hm) (fun e => by simp [e, hl])
  | deliver m =>
    rcases streamEnd with _ | (_ | _) <;> rcases phase with _ | _ | o <;>
      simp_all [roomStep, SentOk, RPhase.isDone]
  | recvStep =>
    rcases recv with _ | _ | _ <;> rcases inbox with _ | ⟨m, rest⟩ <;>
        rcases streamEnd with _ | (_ | _) <;>
      simp_all [roomStep, SentOk]
  | peerClose ok =>
    rcases streamEnd with _ | (_ | _) <;> rcases phase with _ | _ | o <;>
      simp_all [roomStep, SentOk, RPhase.isDone]
  | closeDone =>
    rcases phase with _ | _ | o <;> simp_all [roomStep, SentOk]

theorem roomRun_sentOk (evs : List REvent) :
    ∀ st : RoomState, SentOk st → SentOk (roomRun st evs) := by
  induction evs with
  | nil => intro st h; exact h
  | cons ev evs ih =>
    intro st h
    rw [roomRun_cons]
    exact ih _ (sentOk_step st ev h)

/-! ### RoomSession connect/handshake phase (lines 117–128, 160–161)

`room_chat`'s whole body sits in a `try` whose `except Exception`
prints the join-failure message.  Before the steady state it connects,
reads one welcome message, prompts for a name and sends it; an
exception in any of those aborts before the steady state begins. -/

/-- Oracle for the fallible operations of the handshake: whether
`connect(address)` succeeds, whether the welcome `ws.recv()` succeeds
(and its text), and whether the name send succeeds (and the name
typed). -/
structure Handshake where
  connectOk : Bool
  welcomeOk : Bool
  welcome : String
  nameSendOk : Bool
  name : String
deriving DecidableEq, Repr

/-- Result of one `room_chat` call: whether the outer `except` fired
(join failure), the renders outside the steady state, and the final
steady-state machine state when the steady state was entered. -/
structure RoomChatResult where
  failed : Bool
  hsRendered : List RRender
  steady : Option RoomState
deriving DecidableEq, Repr

/-- One `room_chat` run (lines 117–161): connect, read the welcome
(printed at line 122), prompt for and send the name (line 124), then
enter the steady state driven by `script`.  Any exception during the
handshake falls to the outer handler, which prints the join-failure
message (line 161) and returns. -/
def roomChat (hs : Handshake) (script : List REvent) : RoomChatResult :=
  if !hs.connectOk then ⟨true, [.joinFailure], none⟩
  else if !hs.welcomeOk then ⟨true, [.joinFailure], none⟩
  else if !hs.nameSendOk then ⟨true, [.welcomeBanner hs.welcome, .joinFailure], none⟩
  else ⟨false, [.welcomeBanner hs.welcome, .joinedRoom hs.name],
        some (roomRun roomInit script)⟩

/-! ### HubSession (source lines 29–114)

`hub_client` connects, sends one `get_list`, then loops on inbound hub
messages (`async for raw in ws`, line 36); a `room_list` message enters
the inner command loop (lines 53–111), which runs until a command sends
a fresh `get_list` and `break`s back to the outer wait, or `/quit`
returns.  We embed it as a state machine driven by oracle events; the
startup banner prints (lines 33–34) are not modelled. -/

/-- Control position of `hub_client`:
`awaitMsg` = suspended in the outer `async for`;
`cmdLoop` = suspended in `read_input` of the inner command loop;
`finished` = `hub_client` returned normally;
`crashed` = an exception escaped `hub_client` (and `main`, which catches
only `KeyboardInterrupt`, so it reaches the interpreter's default
handler). -/
inductive HPhase where
  | awaitMsg
  | cmdLoop
  | finished
  | crashed
deriving DecidableEq, Repr

/-- User-visible prints of the hub loop.  `infoFound` carries the
address rendered and the inferred transport security
(`addr.startswith('wss')`, line 89); `infoOther` is the partial render
when the cached address is not a string (the `Protocol:` f-string then
raises).  `adminBroadcast` carries `data.get('message', '')`. -/
inductive HubRender where
  | roomList (n : Nat)
  | helpText
  | pong
  | infoFound (name : String) (addr : String) (secure : Bool)
  | infoOther (name : String) (addr : JVal)
  | infoNotFound (name : String)
  | joinNotFound (name : String)
  | connecting (name : String)
  | returnedToHub
  | goodbye
  | unknownCmd (raw : String)
  | adminBroadcast (message : JVal)

/-- State of the hub loop: the cached room directory (a decoded JSON
object, name to address), the control phase, the number of
`{"type": "get_list"}` requests sent so far, the render log, the
addresses `room_chat` has been invoked with, and whether the hub
connection is still alive. -/
structure HubState where
  rooms : List (String × JVal)
  phase : HPhase
  sentGetList : Nat
  rendered : List HubRender
  joins : List JVal
  connAlive : Bool

/-- The state right after connecting (lines 30–34): one `get_list`
already sent, empty directory, waiting for the first inbound message. -/
def hubInit : HubState :=
  { rooms := [], phase := .awaitMsg, sentGetList := 1, rendered := [],
    joins := [], connAlive := true }

/-- Oracle events driving `hub_client`: `msg` = an inbound payload is
handed to the `async for` (with the result of `json.loads`: `none`
means decoding raised); `cmd` = `read_input` completes with a line in
the inner loop (`outc` is the outcome of the nested RoomSession, used
only by a successful `/join` — the code ignores it, which the theorems
make explicit); `connDrop` = the hub connection ends (`ok` = clean
close by the peer). -/
inductive HEvent where
  | msg (decoded : Option JVal)
  | cmd (line : String) (outc : ROutcome)
  | connDrop (ok : Bool)

/-- Model of `await ws.send(json.dumps({"type": "get_list"}))`: on a
live connection the request is sent; on a dead one `ws.send` raises
`ConnectionClosed`, which no handler in `hub_client` catches. -/
def hubSend (st : HubState) : HubState :=
  if st.connAlive then { st with sentGetList := st.sentGetList + 1 }
  else { st with phase := .crashed }

/-- One iteration of the inner command loop (lines 53–111) on the raw
input `line`.  Dispatch order and string tests follow the source:
`if not cmd` on the raw line, then `cmd = cmd.strip()`, then the
`/help`, `/list`/`/refresh`, `/ping`, `/info `-prefix, `/join `-prefix,
`/quit`, unknown chain.  `/join` resolves `rooms.get(room_name)` and
treats a falsy result (absent key or falsy address value) as not found
(line 97); otherwise it prints the connecting notice, runs `room_chat`
(which always returns — its body is wrapped in `try/except Exception`),
prints the returned notice, sends a fresh `get_list` and breaks to the
outer wait. -/
def hubCmdStep (st : HubState) (line : String) (_outc : ROutcome) : HubState :=
  if line = "" then st
  else
    let cmd := pyStrip line
    if cmd = "/help" then
      { st with rendered := st.rendered ++ [.helpText] }
    else if cmd = "/list" ∨ cmd = "/refresh" then
      if st.connAlive then
        { st with sentGetList := st.sentGetList + 1, phase := .awaitMsg }
      else { st with phase := .crashed }
    else if cmd = "/ping" then
      if st.connAlive then
        { st with sentGetList := st.sentGetList + 1,
                  rendered := st.rendered ++ [.pong] }
      else { st with phase := .crashed }
    else if pyStartsWith cmd "/info " then
      let rn := pyStrip (pySliceFrom cmd 6)
      match jgetObj st.rooms rn with
      | some (.jstr a) =>
        { st with rendered := st.rendered ++ [.infoFound rn a (pyStartsWith a "wss")] }
      | some v =>
        { st with rendered := st.rendered ++ [.infoOther rn v], phase := .crashed }
      | none =>
        { st with rendered := st.rendered ++ [.infoNotFound rn] }
    else if pyStartsWith cmd "/join " then
      let rn := pyStrip (pySliceFrom cmd 6)
      let addr := jgetObj st.rooms rn
      if optFalsy addr then
        { st with rendered := st.rendered ++ [.joinNotFound rn] }
      else
        let st1 := { st with
          rendered := st.rendered ++ [HubRender.connecting rn, HubRender.returnedToHub],
          joins := st.joins ++ [addr.getD .jnull] }
        if st1.connAlive then
          { st1 with sentGetList := st1.sentGetList + 1, phase := .awaitMsg }
        else { st1 with phase := .crashed }
    else if cmd = "/quit" then
      { st with rendered := st.rendered ++ [.goodbye], phase := .finished }
    else
      { st with rendered := st.rendered ++ [.unknownCmd cmd] }

/-- Handling of one inbound hub payload in the outer `async for`
(lines 36–43, 42–50, 113–114).  A `json.loads` failure is swallowed by
the `try/except` and the loop continues (`none` case).  A decoded
object dispatches on `data.get("type")`: `room_list` replaces the
cached directory from `data.get("rooms", {})` (a non-object `rooms`
value makes the following `len`/`.items()` raise — uncaught),
`admin_broadcast` renders `data.get("message", "")`, anything else
falls through silently.  A decoded non-object payload reaches
`data.get("type")`, which raises `AttributeError` — the `try` covers
only `json.loads`, so the exception escapes `hub_client`. -/
def hubMsgStep (st : HubState) (d : Option JVal) : HubState :=
  match d with
  | none => st
  | some (.jobj fs) =>
    match jgetObj fs "type" with
    | some (.jstr t) =>
      if t = "room_list" then
        match jgetObj fs "rooms" with
        | none =>
          { st with rooms := [], rendered := st.rendered ++ [.roomList 0],
                    phase := .cmdLoop }
        | some (.jobj rs) =>
          { st with rooms := rs, rendered := st.rendered ++ [.roomList rs.length],
                    phase := .cmdLoop }
        | some _ => { st with phase := .crashed }
      else if t = "admin_broadcast" then
        { st with rendered :=
            st.rendered ++ [.adminBroadcast ((jgetObj fs "message").getD (.jstr ""))] }
      else st
    | _ => st
  | some _ => { st with phase := .crashed }

/-- One atomic step of `hub_client`.  Inbound payloads are consumed
only while suspended in the outer `async for`; user lines are consumed
only inside the inner command loop; a connection drop noticed at the
outer wait ends the `async for` — silently falling off the loop on a
clean close (so `hub_client` returns), raising `ConnectionClosedError`
on an error close; a drop while in the command loop is noticed at the
next send. -/
def hubStep (st : HubState) (ev : HEvent) : HubState :=
  match ev with
  | .msg d => if st.phase = .awaitMsg then hubMsgStep st d else st
  | .cmd line outc => if st.phase = .cmdLoop then hubCmdStep st line outc else st
  | .connDrop ok =>
    match st.phase with
    | .awaitMsg =>
      { st with connAlive := false, phase := if ok then .finished else .crashed }
    | .cmdLoop => { st with connAlive := false }
    | _ => st

/-- Run the hub loop over an oracle event script. -/
def hubRun (st : HubState) (evs : List HEvent) : HubState :=
  evs.foldl hubStep st

theorem hubRun_cons (st : HubState) (ev : HEvent) (evs : List HEvent) :
    hubRun st (ev :: evs) = hubRun (hubStep st ev) evs := rfl

/-! ### Helper lemmas -/

/-- Two prefix tests on the same string, with prefixes of equal length,
can both succeed only if the prefixes are equal. -/
theorem pyStartsWith_both (s p q : String) (hp : pyStartsWith s p = true)
    (hq : pyStartsWith s q = true) (hlen : p.data.length = q.data.length) :
    p.data = q.data := by
  simp only [pyStartsWith] at hp hq
  have hp' := List.isPrefixOf_iff_prefix.mp hp
  have hq' := List.isPrefixOf_iff_prefix.mp hq
  exact (List.prefix_of_prefix_length_le hp' hq' (le_of_eq hlen)).eq_of_length hlen

/-- A string passing a prefix test differs from any string failing it. -/
theorem ne_of_pyStartsWith (s p t : String) (h : pyStartsWith s p = true)
    (ht : pyStartsWith t p = false) : s ≠ t := by
  intro e
  rw [e, ht] at h
  exact Bool.noConfusion h

/-- A string starting with `/join ` does not start with `/info `. -/
theorem not_info_of_join (s : String) (h : pyStartsWith s "/join " = true) :
    pyStartsWith s "/info " = false := by
  by_contra hc
  rw [Bool.not_eq_false] at hc
  exact absurd (pyStartsWith_both s "/join " "/info " h hc (by decide)) (by decide)

theorem hubMsgStep_sentGetList (st : HubState) (d : Option JVal) :
    (hubMsgStep st d).sentGetList = st.sentGetList := by
  unfold hubMsgStep
  repeat' split
  all_goals rfl

/-- No branch of the command dispatch mutates the cached directory. -/
theorem hubCmdStep_rooms (st : HubState) (line : String) (outc : ROutcome) :
    (hubCmdStep st line outc).rooms = st.rooms := by
  unfold hubCmdStep
  dsimp only
  repeat' split
  all_goals rfl

theorem hubStep_rooms_of_cmd (st : HubState) (line : String) (outc : ROutcome) :
    (hubStep st (.cmd line outc)).rooms = st.rooms := by
  simp only [hubStep]
  split
  · exact hubCmdStep_rooms st line outc
  · rfl

/-- A step taken anywhere other than inside the command loop sends no
`get_list` request. -/
theorem hubStep_sent_of_not_cmdLoop (st : HubState) (ev : HEvent)
    (h : st.phase ≠ .cmdLoop) :
    (hubStep st ev).sentGetList = st.sentGetList := by
  obtain ⟨rooms, phase, sent, rend, joins, alive⟩ := st
  simp only at h
  cases ev with
  | msg d =>
    by_cases hph : phase = HPhase.awaitMsg
    · subst hph
      simp only [hubStep, if_pos rfl]
      exact hubMsgStep_sentGetList _ d
    · simp [hubStep, hph]
  | cmd line outc => simp [hubStep, h]
  | connDrop ok => cases phase <;> simp [hubStep]

/-- After `hub_client` has returned or crashed, no event has any
further effect. -/
theorem hubStep_ended_absorbing (st : HubState) (ev : HEvent)
    (h : st.phase = .finished ∨ st.phase = .crashed) :
    hubStep st ev = st := by
  obtain ⟨rooms, phase, sent, rend, joins, alive⟩ := st
  simp only at h
  cases ev <;> rcases h with h | h <;> subst h <;> simp [hubStep]

theorem hubRun_ended_absorbing (evs : List HEvent) :
    ∀ st : HubState, st.phase = .finished ∨ st.phase = .crashed →
      hubRun st evs = st := by
  induction evs with
  | nil => intro st _; rfl
  | cons ev evs ih =>
    intro st h
    rw [hubRun_cons, hubStep_ended_absorbing st ev h]
    exact ih st h

/-- `noSendUntilAccept st evs` states that, stepping `st` along `evs`,
the count of sent `get_list` requests stays unchanged at least until
the first state back inside the command loop (the first state that
accepts a user command). -/
def noSendUntilAccept : HubState → List HEvent → Prop
  | _, [] => True
  | st, ev :: evs =>
    (hubStep st ev).sentGetList = st.sentGetList ∧
    ((hubStep st ev).phase = .cmdLoop ∨ noSendUntilAccept (hubStep st ev) evs)

theorem noSendUntilAccept_of_not_cmdLoop (evs : List HEvent) :
    ∀ st : HubState, st.phase ≠ .cmdLoop → noSendUntilAccept st evs := by
  induction evs with
  | nil => intro st _; trivial
  | cons ev evs ih =>
    intro st h
    refine ⟨hubStep_sent_of_not_cmdLoop st ev h, ?_⟩
    by_cases hc : (hubStep st ev).phase = .cmdLoop
    · exact Or.inl hc
    · exact Or.inr (ih _ hc)

/-! ### Claim theorems -/

/-- C4: for every run of RoomSession invoked via Join — whichever way
RoomSession returns (the dispatch ignores the outcome `outc`, over
which this theorem quantifies) — HubSession sends exactly one
`{"type": "get_list"}` request to the hub, renders the connecting and
returned notices, records the connection attempt, and goes back to the
outer wait; no further `get_list` is sent before the next state that
accepts a user command. -/
theorem join_sends_one_get_list (st st' : HubState) (line : String)
    (outc : ROutcome) (a : JVal)
    (h1 : st.phase = .cmdLoop) (h2 : line ≠ "")
    (h3 : pyStartsWith (pyStrip line) "/join " = true)
    (h4 : jgetObj st.rooms (pyStrip (pySliceFrom (pyStrip line) 6)) = some a)
    (h5 : jFalsy a = false)
    (h6 : st.connAlive = true)
    (hst : st' = hubStep st (.cmd line outc)) :
    st'.sentGetList = st.sentGetList + 1 ∧
    st'.phase = .awaitMsg ∧
    st'.joins = st.joins ++ [a] ∧
    st'.rendered = st.rendered ++
      [HubRender.connecting (pyStrip (pySliceFrom (pyStrip line) 6)),
       HubRender.returnedToHub] ∧
    ∀ evs, noSendUntilAccept st' evs := by
  have hhelp : pyStrip line ≠ "/help" := ne_of_pyStartsWith _ _ _ h3 (by decide)
  have hlist : pyStrip line ≠ "/list" := ne_of_pyStartsWith _ _ _ h3 (by decide)
  have hrefresh : pyStrip line ≠ "/refresh" := ne_of_pyStartsWith _ _ _ h3 (by decide)
  have hping : pyStrip line ≠ "/ping" := ne_of_pyStartsWith _ _ _ h3 (by decide)
  have hinfo := not_info_of_join _ h3
  have hred : hubStep st (.cmd line outc) =
      { st with
        rendered := st.rendered ++
          [HubRender.connecting (pyStrip (pySliceFrom (pyStrip line) 6)),
           HubRender.returnedToHub],
        joins := st.joins ++ [a],
        sentGetList := st.sentGetList + 1, phase := .awaitMsg } := by
    simp only [hubStep, if_pos h1]
    unfold hubCmdStep
    simp only [if_neg h2, hhelp, hlist, hrefresh, hping, hinfo, h3, h4, h5, h6,
      optFalsy, Option.getD_some, if_true, if_false, ite_false, ite_true,
      or_self, Bool.false_eq_true, iff_false, eq_self_iff_true]
  subst hst
  rw [hred]
  refine ⟨rfl, rfl, rfl, rfl, ?_⟩
  intro evs
  exact noSendUntilAccept_of_not_cmdLoop evs _ (by simp)

/-- C5: for every cached directory and every room name absent from it,
the Join command renders the not-found notice, stays in the command
loop, never attempts a connection, sends nothing, and leaves the
directory cache (and everything else) unchanged. -/
theorem join_absent_no_connection (st st' : HubState) (line : String)
    (outc : ROutcome)
    (h1 : st.phase = .cmdLoop) (h2 : line ≠ "")
    (h3 : pyStartsWith (pyStrip line) "/join " = true)
    (h4 : jgetObj st.rooms (pyStrip (pySliceFrom (pyStrip line) 6)) = none)
    (hst : st' = hubStep st (.cmd line outc)) :
    st' = { st with rendered := st.rendered ++
             [HubRender.joinNotFound (pyStrip (pySliceFrom (pyStrip line) 6))] } ∧
    st'.rooms = st.rooms ∧ st'.joins = st.joins ∧
    st'.phase = .cmdLoop ∧ st'.sentGetList = st.sentGetList := by
  have hhelp : pyStrip line ≠ "/help" := ne_of_pyStartsWith _ _ _ h3 (by decide)
  have hlist : pyStrip line ≠ "/list" := ne_of_pyStartsWith _ _ _ h3 (by decide)
  have hrefresh : pyStrip line ≠ "/refresh" := ne_of_pyStartsWith _ _ _ h3 (by decide)
  have hping : pyStrip line ≠ "/ping" := ne_of_pyStartsWith _ _ _ h3 (by decide)
  have hinfo := not_info_of_join _ h3
  have hred : hubStep st (.cmd line outc) =
      { st with rendered := st.rendered ++
          [HubRender.joinNotFound (pyStrip (pySliceFrom (pyStrip line) 6))] } := by
    simp only [hubStep, if_pos h1]
    unfold hubCmdStep
    simp only [if_neg h2, hhelp, hlist, hrefresh, hping, hinfo, h3, h4,
      optFalsy, if_true, if_false, ite_false, ite_true, or_self,
      Bool.false_eq_true, iff_false, eq_self_iff_true]
  subst hst
  rw [hred]
  exact ⟨rfl, rfl, rfl, h1, rfl⟩

/-- C6: for every cached directory snapshot and every room name, the
Info command renders exactly the stored address when the name is a key
of the directory holding a string address (with the transport security
inferred from the `wss` scheme prefix), renders not-found when the name
is absent, and in both cases leaves the directory (and the rest of the
state) unchanged. -/
theorem info_renders_stored_address (st st' : HubState) (line : String)
    (outc : ROutcome)
    (h1 : st.phase = .cmdLoop) (h2 : line ≠ "")
    (h3 : pyStartsWith (pyStrip line) "/info " = true)
    (hst : st' = hubStep st (.cmd line outc)) :
    st'.rooms = st.rooms ∧
    (∀ a : String,
       jgetObj st.rooms (pyStrip (pySliceFrom (pyStrip line) 6)) = some (.jstr a) →
       st' = { st with rendered := st.rendered ++
         [HubRender.infoFound (pyStrip (pySliceFrom (pyStrip line) 6)) a
            (pyStartsWith a "wss")] }) ∧
    (jgetObj st.rooms (pyStrip (pySliceFrom (pyStrip line) 6)) = none →
       st' = { st with rendered := st.rendered ++
         [HubRender.infoNotFound (pyStrip (pySliceFrom (pyStrip line) 6))] }) := by
  have hhelp : pyStrip line ≠ "/help" := ne_of_pyStartsWith _ _ _ h3 (by decide)
  have hlist : pyStrip line ≠ "/list" := ne_of_pyStartsWith _ _ _ h3 (by decide)
  have hrefresh : pyStrip line ≠ "/refresh" := ne_of_pyStartsWith _ _ _ h3 (by decide)
  have hping : pyStrip line ≠ "/ping" := ne_of_pyStartsWith _ _ _ h3 (by decide)
  refine ⟨by rw [hst]; exact hubStep_rooms_of_cmd st line outc, ?_, ?_⟩
  · intro a ha
    have hred : hubStep st (.cmd line outc) =
        { st with rendered := st.rendered ++
          [HubRender.infoFound (pyStrip (pySliceFrom (pyStrip line) 6)) a
             (pyStartsWith a "wss")] } := by
      simp only [hubStep, if_pos h1]
      unfold hubCmdStep
      simp only [if_neg h2, hhelp, hlist, hrefresh, hping, h3, ha,
        if_true, if_false, ite_false, ite_true, or_self,
        Bool.false_eq_true, iff_false, eq_self_iff_true]
    rw [hst, hred]
  · intro ha
    have hred : hubStep st (.cmd line outc) =
        { st with rendered := st.rendered ++
          [HubRender.infoNotFound (pyStrip (pySliceFrom (pyStrip line) 6))] } := by
      simp only [hubStep, if_pos h1]
      unfold hubCmdStep
      simp only [if_neg h2, hhelp, hlist, hrefresh, hping, h3, ha,
        if_true, if_false, ite_false, ite_true, or_self,
        Bool.false_eq_true, iff_false, eq_self_iff_true]
    rw [hst, hred]

/-- C10: for every cached directory in which a room name is present but
maps to the empty-string address, Join reports not-found and attempts
no connection (it tests the truthiness of `rooms.get(room_name)`, and
the empty string is falsy), while Info on the same name treats it as
present and renders the stored empty address (with the insecure
transport, as `"".startswith('wss')` is false) — the two commands
disagree on membership for such entries. -/
theorem join_info_disagree_on_empty_addr (st : HubState) (name : String)
    (jline iline : String) (outc : ROutcome)
    (h1 : st.phase = .cmdLoop)
    (hj1 : jline ≠ "") (hj2 : pyStartsWith (pyStrip jline) "/join " = true)
    (hj3 : pyStrip (pySliceFrom (pyStrip jline) 6) = name)
    (hi1 : iline ≠ "") (hi2 : pyStartsWith (pyStrip iline) "/info " = true)
    (hi3 : pyStrip (pySliceFrom (pyStrip iline) 6) = name)
    (hmem : jgetObj st.rooms name = some (.jstr "")) :
    hubStep st (.cmd jline outc) =
      { st with rendered := st.rendered ++ [HubRender.joinNotFound name] } ∧
    hubStep st (.cmd iline outc) =
      { st with rendered := st.rendered ++ [HubRender.infoFound name "" false] } := by
  have hhelp : pyStrip jline ≠ "/help" := ne_of_pyStartsWith _ _ _ hj2 (by decide)
  have hlist : pyStrip jline ≠ "/list" := ne_of_pyStartsWith _ _ _ hj2 (by decide)
  have hrefresh : pyStrip jline ≠ "/refresh" := ne_of_pyStartsWith _ _ _ hj2 (by decide)
  have hping : pyStrip jline ≠ "/ping" := ne_of_pyStartsWith _ _ _ hj2 (by decide)
  have hinfo := not_info_of_join _ hj2
  have hihelp : pyStrip iline ≠ "/help" := ne_of_pyStartsWith _ _ _ hi2 (by decide)
  have hilist : pyStrip iline ≠ "/list" := ne_of_pyStartsWith _ _ _ hi2 (by decide)
  have hirefresh : pyStrip iline ≠ "/refresh" := ne_of_pyStartsWith _ _ _ hi2 (by decide)
  have hiping : pyStrip iline ≠ "/ping" := ne_of_pyStartsWith _ _ _ hi2 (by decide)
  have hfalsy : optFalsy (some (JVal.jstr "")) = true := rfl
  have hwss : pyStartsWith "" "wss" = false := rfl
  constructor
  · have hmem' : jgetObj st.rooms (pyStrip (pySliceFrom (pyStrip jline) 6)) =
        some (.jstr "") := by rw [hj3]; exact hmem
    simp only [hubStep, if_pos h1]
    unfold hubCmdStep
    simp only [if_neg hj1, hhelp, hlist, hrefresh, hping, hinfo, hj2, hmem',
      hfalsy, if_true, if_false, ite_false, ite_true, or_self,
      Bool.false_eq_true, iff_false, eq_self_iff_true]
    rw [hj3]
  · have hmem' : jgetObj st.rooms (pyStrip (pySliceFrom (pyStrip iline) 6)) =
        some (.jstr "") := by rw [hi3]; exact hmem
    simp only [hubStep, if_pos h1]
    unfold hubCmdStep
    simp only [if_neg hi1, hihelp, hilist, hirefresh, hiping, hi2, hmem', hwss,
      if_true, if_false, ite_false, ite_true, or_self,
      Bool.false_eq_true, iff_false, eq_self_iff_true]
    rw [hi3]

/-- C9 (amended): an inbound hub payload that fails to decode as JSON,
or that decodes to a JSON object whose `type` is neither `room_list`
nor `admin_broadcast`, is silently discarded — the state, in particular
the directory cache, is exactly unchanged and the receive loop
continues; but a payload that decodes to a non-object value reaches
`data.get("type")`, which raises an uncaught `AttributeError` that
escapes `hub_client` (the claim's "silently discarded" does not hold
for those payloads — see the counterexample). -/
theorem malformed_payload_discarded (st : HubState) (d : Option JVal)
    (h1 : st.phase = .awaitMsg) :
    ((d = none ∨ ∃ fs, d = some (.jobj fs) ∧
        ∀ t, jgetObj fs "type" = some (.jstr t) →
          t ≠ "room_list" ∧ t ≠ "admin_broadcast") →
      hubStep st (.msg d) = st) ∧
    (∀ v, d = some v → (∀ fs, v ≠ .jobj fs) →
      (hubStep st (.msg d)).phase = .crashed) := by
  constructor
  · intro h
    simp only [hubStep, if_pos h1]
    rcases h with h | ⟨fs, hd, hty⟩
    · subst h; rfl
    · subst hd
      simp only [hubMsgStep]
      rcases hts : jgetObj fs "type" with _ | (_ | b | n | s | xs | gs)
      · rfl
      · rfl
      · rfl
      · rfl
      · obtain ⟨hr, ha⟩ := hty _ hts
        simp [hr, ha]
      · rfl
      · rfl
  · intro v hd hv
    subst hd
    simp only [hubStep, if_pos h1]
    rcases v with _ | b | n | s | xs | gs
    · rfl
    · rfl
    · rfl
    · rfl
    · rfl
    · exact absurd rfl (hv gs)

/-- C3 (amended): when the hub connection ends while `hub_client` is
suspended at the outer receive loop, the client renders nothing and
attempts no further command: a clean close by the peer makes the
`async for` terminate, so `hub_client` returns and the process ends
silently; an error close raises `ConnectionClosedError`, which escapes
`hub_client` and `main` (which catches only `KeyboardInterrupt`).  In
both cases every later event leaves the state unchanged. -/
theorem hub_drop_ends_silently (st st' : HubState) (ok : Bool)
    (h1 : st.phase = .awaitMsg)
    (hst : st' = hubStep st (.connDrop ok)) :
    st'.phase = (if ok then .finished else .crashed) ∧
    st'.rendered = st.rendered ∧
    st'.sentGetList = st.sentGetList ∧
    st'.rooms = st.rooms ∧
    ∀ evs, hubRun st' evs = st' := by
  obtain ⟨rooms, phase, sent, rend, joins, alive⟩ := st
  simp only at h1
  subst h1
  have hred : st' =
      { rooms := rooms, phase := (if ok then HPhase.finished else HPhase.crashed),
        sentGetList := sent, rendered := rend, joins := joins, connAlive := false } := by
    rw [hst]
    cases ok <;> rfl
  subst hred
  refine ⟨rfl, rfl, rfl, rfl, ?_⟩
  intro evs
  apply hubRun_ended_absorbing
  cases ok
  · exact Or.inr rfl
  · exact Or.inl rfl

/-- C1 (amended): in any steady-state trace where the user enters a
line that strips to `/leave`, the line (and any later line) is never
sent to the room connection, no line whose stripped form is `/leave` is
ever sent, and the session is from then on either still completing the
close or has returned `LeftVoluntarily` with the receiver cancelled (or
already terminated) and the connection closed; once it has returned,
nothing further happens.  In-flight inbound messages may however still
be rendered between the `/leave` decision and the completion of
`ws.close()` — the receiver is only cancelled after the close returns —
see the counterexample. -/
theorem leave_never_sent (pre post : List REvent) (line : String)
    (final : RoomState)
    (h1 : (roomRun roomInit pre).phase = .awaitInput)
    (h2 : pyStrip line = "/leave")
    (hfin : final = roomRun roomInit (pre ++ .input line :: post)) :
    final.sentLines = (roomRun roomInit pre).sentLines ∧
    (∀ l ∈ final.sentLines, pyStrip l ≠ "/leave") ∧
    (final.phase = .closing ∨
      (final.phase = .done .leftVoluntarily ∧ final.recv ≠ .running ∧
       final.connClosed = true)) ∧
    (∀ evs, final.phase = .done .leftVoluntarily → roomRun final evs = final) := by
  have hsplit : roomRun roomInit (pre ++ .input line :: post) =
      roomRun (roomStep (roomRun roomInit pre) (.input line)) post := by
    rw [roomRun_append]
    rfl
  have hstep : roomStep (roomRun roomInit pre) (.input line) =
      { roomRun roomInit pre with
        rendered := (roomRun roomInit pre).rendered ++ [.leaving],
        leaveDecided := true, phase := .closing } := by
    simp only [roomStep, if_pos h1, if_pos h2]
  have hpl : PostLeave (roomRun roomInit pre).sentLines final := by
    rw [hfin, hsplit, hstep]
    exact roomRun_postLeave _ post _ ⟨rfl, Or.inl rfl⟩
  obtain ⟨hsent, hph⟩ := hpl
  refine ⟨hsent, ?_, hph, ?_⟩
  · have : SentOk final := by
      rw [hfin]
      refine roomRun_sentOk _ roomInit ?_
      intro l hl
      simp [roomInit] at hl
    exact this
  · intro evs hdone
    rcases hph with hph | ⟨_, hr, _⟩
    · rw [hph] at hdone
      exact absurd hdone (by simp)
    · exact roomRun_done_absorbing evs final .leftVoluntarily hdone hr

/-- C2 (amended): when the receive stream has ended and the receiver,
scheduled with an empty inbox, terminates, a disconnect notice is
rendered only on an error close (a clean peer close ends the
`async for` silently); the outbound loop is unaffected and keeps
accepting user lines, and the session ends — with outcome
`Disconnected` and a connection-lost notice — only when the next
non-`/leave` line fails to send. -/
theorem stream_end_keeps_accepting (st : RoomState) (ok : Bool)
    (h1 : st.recv = .running) (h2 : st.inbox = []) (h3 : st.streamEnd = some ok)
    (h4 : st.phase = .awaitInput) :
    (roomStep st .recvStep).recv = .terminated ∧
    (roomStep st .recvStep).rendered =
      st.rendered ++ (if ok then [] else [RRender.disconnectNotice]) ∧
    (roomStep st .recvStep).phase = .awaitInput ∧
    (roomStep st .recvStep).sentLines = st.sentLines ∧
    (∀ line, pyStrip line ≠ "/leave" →
      (roomStep (roomStep st .recvStep) (.input line)).phase = .done .disconnected ∧
      (roomStep (roomStep st .recvStep) (.input line)).rendered =
        st.rendered ++ (if ok then [] else [RRender.disconnectNotice]) ++
          [RRender.connLost]) := by
  obtain ⟨inbox, streamEnd, recv, phase, sent, rend, ld, ial, cc⟩ := st
  simp only at h1 h2 h3 h4
  subst h1; subst h2; subst h3; subst h4
  have hstep : roomStep
      (⟨[], some ok, .running, .awaitInput, sent, rend, ld, ial, cc⟩ : RoomState)
      .recvStep =
      ⟨[], some ok, .terminated, .awaitInput, sent,
        rend ++ (if ok then [] else [RRender.disconnectNotice]), ld, ial, cc⟩ := by
    cases ok <;> simp [roomStep]
  rw [hstep]
  refine ⟨rfl, rfl, rfl, rfl, ?_⟩
  intro line hline
  simp [roomStep, hline]

/-- C8: any exception during RoomSession's connect/handshake phase
(connecting, reading the welcome, sending the display name) makes
`room_chat` abort before the steady state begins, render the
join-failure message, and return; and no command dispatch — in
particular the join that invoked it, whatever the outcome — ever
modifies the directory cache, so HubSession resumes with the cache
exactly as it was. -/
theorem handshake_failure_aborts (hs : Handshake) (script : List REvent)
    (h : hs.connectOk = false ∨ hs.welcomeOk = false ∨ hs.nameSendOk = false) :
    (roomChat hs script).failed = true ∧
    (roomChat hs script).steady = none ∧
    RRender.joinFailure ∈ (roomChat hs script).hsRendered ∧
    (∀ (st : HubState) (line : String) (outc : ROutcome),
      (hubStep st (.cmd line outc)).rooms = st.rooms) := by
  obtain ⟨c, w, wt, n, nm⟩ := hs
  have hmain : (roomChat ⟨c, w, wt, n, nm⟩ script).failed = true ∧
      (roomChat ⟨c, w, wt, n, nm⟩ script).steady = none ∧
      RRender.joinFailure ∈ (roomChat ⟨c, w, wt, n, nm⟩ script).hsRendered := by
    simp only at h
    rcases h with h | h | h <;> subst h
    · cases w <;> cases n <;> simp [roomChat]
    · cases c <;> cases n <;> simp [roomChat]
    · cases c <;> cases w <;> simp [roomChat]
  exact ⟨hmain.1, hmain.2.1, hmain.2.2, fun st line outc => hubStep_rooms_of_cmd st line outc⟩

/-! ### Counterexamples and witnesses -/

/-- C1 counterexample: an in-flight message delivered before the user
types `/leave` is still rendered after the `/leave` decision — the
receiver runs during the `await ws.close()` suspension, before
`recv_task.cancel()` — even though the session then returns
`LeftVoluntarily`; the render log shows the inbound render after the
leaving notice.  This refutes "no further inbound message is rendered
after this decision regardless of messages already in flight". -/
theorem leave_inflight_render_counterexample :
    (roomRun roomInit
      [.deliver "hello", .input "/leave", .recvStep, .closeDone]).inboundAfterLeave
        = ["hello"] ∧
    (roomRun roomInit
      [.deliver "hello", .input "/leave", .recvStep, .closeDone]).phase
        = .done .leftVoluntarily ∧
    (roomRun roomInit
      [.deliver "hello", .input "/leave", .recvStep, .closeDone]).rendered
        = [.leaving, .inbound .genericInfo "hello"] :=
  ⟨rfl, rfl, rfl⟩

/-- C2 counterexample: after a clean peer close terminates the receive
stream, no disconnect notice is rendered (the `async for` ends without
an exception, so line 144 never runs) and the session has not ended —
the outbound loop still accepts a user line, and only that line's
failed send ends the session.  This refutes "a disconnect notice is
rendered and the session ends with outcome Disconnected … the outbound
input loop does not continue accepting user lines". -/
theorem clean_close_silent_counterexample :
    (roomRun roomInit [.peerClose true, .recvStep]).recv = .terminated ∧
    (roomRun roomInit [.peerClose true, .recvStep]).rendered = [] ∧
    (roomRun roomInit [.peerClose true, .recvStep]).phase = .awaitInput ∧
    (roomRun roomInit [.peerClose true, .recvStep, .input "hi"]).phase
      = .done .disconnected ∧
    (roomRun roomInit [.peerClose true, .recvStep, .input "hi"]).rendered
      = [.connLost] :=
  ⟨rfl, rfl, rfl, rfl, rfl⟩

/-- C3 counterexample: a clean peer close of the hub connection makes
`hub_client` return with nothing rendered (the process ends silently),
and an error close crashes the client (the exception escapes `main`)
with nothing rendered either — no user-visible disconnection message
exists on either path, refuting the claim. -/
theorem hub_drop_counterexample :
    (hubRun hubInit [.connDrop true]).phase = .finished ∧
    (hubRun hubInit [.connDrop true]).rendered = [] ∧
    (hubRun hubInit [.connDrop false]).phase = .crashed ∧
    (hubRun hubInit [.connDrop false]).rendered = [] :=
  ⟨rfl, rfl, rfl, rfl⟩

/-- C9 counterexample: the payload `5` is valid JSON but not an object;
`data.get("type")` raises `AttributeError`, which nothing catches — the
client crashes instead of silently discarding the payload and
continuing the receive loop. -/
theorem non_object_payload_crashes :
    (hubStep hubInit (.msg (some (.jnum 5)))).phase = .crashed ∧
    (hubStep hubInit (.msg (some (.jnum 5)))).rendered = [] :=
  ⟨rfl, rfl⟩

/-- Sample hub state used by the witnesses: inside the command loop
with one cached room. -/
def demoState : HubState :=
  { rooms := [("lobby", .jstr "wss://example/lobby")], phase := .cmdLoop,
    sentGetList := 1, rendered := [], joins := [], connAlive := true }

/-- Sample hub state whose one cached room has an empty-string
address. -/
def demoStateEmpty : HubState :=
  { rooms := [("void", .jstr "")], phase := .cmdLoop,
    sentGetList := 1, rendered := [], joins := [], connAlive := true }

/-- Witness for C1 at a concrete trace. -/
theorem leave_never_sent_witness :
    (roomRun roomInit [.input "/leave", .closeDone]).sentLines
        = (roomRun roomInit []).sentLines ∧
    (∀ l ∈ (roomRun roomInit [.input "/leave", .closeDone]).sentLines,
        pyStrip l ≠ "/leave") ∧
    ((roomRun roomInit [.input "/leave", .closeDone]).phase = .closing ∨
      ((roomRun roomInit [.input "/leave", .closeDone]).phase
          = .done .leftVoluntarily ∧
       (roomRun roomInit [.input "/leave", .closeDone]).recv ≠ .running ∧
       (roomRun roomInit [.input "/leave", .closeDone]).connClosed = true)) ∧
    (∀ evs, (roomRun roomInit [.input "/leave", .closeDone]).phase
        = .done .leftVoluntarily →
      roomRun (roomRun roomInit [.input "/leave", .closeDone]) evs
        = roomRun roomInit [.input "/leave", .closeDone]) :=
  leave_never_sent [] [.closeDone] "/leave" _ rfl (by decide) rfl

/-- Witness for C2 at a concrete state with an error-terminated
stream. -/
theorem stream_end_keeps_accepting_witness :
    (roomStep ⟨[], some false, .running, .awaitInput, [], [], false, [], false⟩
        .recvStep).recv = .terminated ∧
    (roomStep ⟨[], some false, .running, .awaitInput, [], [], false, [], false⟩
        .recvStep).rendered =
      [] ++ (if false then [] else [RRender.disconnectNotice]) ∧
    (roomStep ⟨[], some false, .running, .awaitInput, [], [], false, [], false⟩
        .recvStep).phase = .awaitInput ∧
    (roomStep ⟨[], some false, .running, .awaitInput, [], [], false, [], false⟩
        .recvStep).sentLines = [] ∧
    (∀ line, pyStrip line ≠ "/leave" →
      (roomStep (roomStep
          ⟨[], some false, .running, .awaitInput, [], [], false, [], false⟩
          .recvStep) (.input line)).phase = .done .disconnected ∧
      (roomStep (roomStep
          ⟨[], some false, .running, .awaitInput, [], [], false, [], false⟩
          .recvStep) (.input line)).rendered =
        [] ++ (if false then [] else [RRender.disconnectNotice]) ++
          [RRender.connLost]) :=
  stream_end_keeps_accepting
    ⟨[], some false, .running, .awaitInput, [], [], false, [], false⟩
    false rfl rfl rfl rfl

/-- Witness for C3 at the initial hub state and a clean close. -/
theorem hub_drop_ends_silently_witness :
    (hubStep hubInit (.connDrop true)).phase
        = (if true then HPhase.finished else HPhase.crashed) ∧
    (hubStep hubInit (.connDrop true)).rendered = hubInit.rendered ∧
    (hubStep hubInit (.connDrop true)).sentGetList = hubInit.sentGetList ∧
    (hubStep hubInit (.connDrop true)).rooms = hubInit.rooms ∧
    ∀ evs, hubRun (hubStep hubInit (.connDrop true)) evs
        = hubStep hubInit (.connDrop true) :=
  hub_drop_ends_silently hubInit _ true rfl rfl

/-- Witness for C4: joining the cached room `lobby`. -/
theorem join_sends_one_get_list_witness :
    (hubStep demoState (.cmd "/join lobby" .disconnected)).sentGetList
        = demoState.sentGetList + 1 ∧
    (hubStep demoState (.cmd "/join lobby" .disconnected)).phase = .awaitMsg ∧
    (hubStep demoState (.cmd "/join lobby" .disconnected)).joins
        = demoState.joins ++ [JVal.jstr "wss://example/lobby"] ∧
    (hubStep demoState (.cmd "/join lobby" .disconnected)).rendered
        = demoState.rendered ++
          [HubRender.connecting (pyStrip (pySliceFrom (pyStrip "/join lobby") 6)),
           HubRender.returnedToHub] ∧
    ∀ evs, noSendUntilAccept (hubStep demoState (.cmd "/join lobby" .disconnected)) evs :=
  join_sends_one_get_list demoState _ "/join lobby" .disconnected
    (.jstr "wss://example/lobby") rfl (by decide) (by decide) rfl rfl rfl rfl

/-- Witness for C5: joining the absent room `ghost`. -/
theorem join_absent_no_connection_witness :
    hubStep demoState (.cmd "/join ghost" .disconnected) =
      { demoState with rendered := demoState.rendered ++
          [HubRender.joinNotFound (pyStrip (pySliceFrom (pyStrip "/join ghost") 6))] } ∧
    (hubStep demoState (.cmd "/join ghost" .disconnected)).rooms = demoState.rooms ∧
    (hubStep demoState (.cmd "/join ghost" .disconnected)).joins = demoState.joins ∧
    (hubStep demoState (.cmd "/join ghost" .disconnected)).phase = .cmdLoop ∧
    (hubStep demoState (.cmd "/join ghost" .disconnected)).sentGetList
        = demoState.sentGetList :=
  join_absent_no_connection demoState _ "/join ghost" .disconnected
    rfl (by decide) (by decide) rfl rfl

/-- Witness for C6: `/info lobby` renders the stored address with the
secure transport inferred from the `wss` prefix. -/
theorem info_renders_stored_address_witness :
    hubStep demoState (.cmd "/info lobby" .disconnected) =
      { demoState with rendered := demoState.rendered ++
          [HubRender.infoFound (pyStrip (pySliceFrom (pyStrip "/info lobby") 6))
            "wss://example/lobby" (pyStartsWith "wss://example/lobby" "wss")] } :=
  (info_renders_stored_address demoState _ "/info lobby" .disconnected
    rfl (by decide) (by decide) rfl).2.1 "wss://example/lobby" rfl

/-- Witness for C8: a failed connect aborts with the join-failure
notice and the dispatch leaves any cache unchanged. -/
theorem handshake_failure_aborts_witness :
    (roomChat ⟨false, true, "welcome", true, "bob"⟩ []).failed = true ∧
    (roomChat ⟨false, true, "welcome", true, "bob"⟩ []).steady = none ∧
    RRender.joinFailure ∈ (roomChat ⟨false, true, "welcome", true, "bob"⟩ []).hsRendered ∧
    (∀ (st : HubState) (line : String) (outc : ROutcome),
      (hubStep st (.cmd line outc)).rooms = st.rooms) :=
  handshake_failure_aborts ⟨false, true, "welcome", true, "bob"⟩ [] (Or.inl rfl)

/-- Witness for C9: an object payload with an unrecognized type is
discarded with the state unchanged. -/
theorem malformed_payload_discarded_witness :
    hubStep hubInit (.msg (some (.jobj [("type", .jstr "bogus")]))) = hubInit :=
  (malformed_payload_discarded hubInit (some (.jobj [("type", .jstr "bogus")])) rfl).1
    (Or.inr ⟨[("type", .jstr "bogus")], rfl, by
      intro t ht
      have h1 := Option.some.inj ht
      have h2 := JVal.jstr.inj h1
      rw [← h2]
      exact ⟨by decide, by decide⟩⟩)

/-- Witness for C10: the room `void` cached with the empty-string
address — Join says not found, Info renders it. -/
theorem join_info_disagree_witness :
    hubStep demoStateEmpty (.cmd "/join void" .disconnected) =
      { demoStateEmpty with rendered := demoStateEmpty.rendered ++
          [HubRender.joinNotFound "void"] } ∧
    hubStep demoStateEmpty (.cmd "/info void" .disconnected) =
      { demoStateEmpty with rendered := demoStateEmpty.rendered ++
          [HubRender.infoFound "void" "" false] } :=
  join_info_disagree_on_empty_addr demoStateEmpty "void" "/join void" "/info void"
    .disconnected rfl (by decide) (by decide) (by decide)
    (by decide) (by decide) (by decide) rfl

end ChromaDeck
